import Mathlib

/-!
Verification development for the AWS Study Partner RAG backend.

The definitions below are a shallow embedding of the Python sources
`backend/app/rag_engine.py` (classes `ConversationHistory` and
`EnhancedAWSStudyPartner`) and `backend/app/api.py` (the FastAPI
endpoints, in particular quiz storage and grading).  External
collaborators (the Pinecone vector index, the OpenAI chat model, the
`uuid` and `hash` primitives, the wall clock) are modelled as an
explicit environment record; fallible calls return `Except`.
Python floats are modelled as rationals.
-/

namespace AwsStudy

/-- Python list slice `lst[-k:]`.  For `k > 0` this keeps the last `k`
elements (all of them when `k ≥ len`); for `k = 0` Python reads it as
`lst[0:]`, the whole list (since `-0 == 0`). -/
def pyTakeLast (l : List α) (k : Nat) : List α :=
  if k = 0 then l else l.drop (l.length - k)

/-- Python string slice `s[:n]` on the character list. -/
def pySliceTo (s : String) (n : Nat) : String :=
  String.mk (s.data.take n)

/-- Python `or`-defaulting for optional strings: `x or default`
is `default` when `x` is `None` or the empty string. -/
def pyOrStr (x : Option String) (d : String) : String :=
  match x with
  | none => d
  | some s => if s = "" then d else s

/-- One entry of the conversation history of a session
(`{"question": ..., "answer": ..., "timestamp": time.time()}`). -/
structure HistEntry where
  question : String
  answer : String
  timestamp : ℚ
deriving DecidableEq

/-- `ConversationHistory` from `rag_engine.py`: a dict from session id
to a list of history entries, plus the configured maximum length.
The Python dict is modelled as a function into `Option`. -/
structure ConversationHistory where
  sessions : String → Option (List HistEntry)
  max_history : Nat

/-- A fresh store, `ConversationHistory(max_history)`; the constructor
default in the source is `max_history = 5`. -/
def ConversationHistory.init (max_history : Nat) : ConversationHistory :=
  ⟨fun _ => none, max_history⟩

/-- `ConversationHistory.add_message`: ensure the session exists,
append the timestamped entry, and when the list exceeds `max_history`
keep only `lst[-max_history:]`. -/
def ConversationHistory.add_message (h : ConversationHistory)
    (session_id question answer : String) (now : ℚ) : ConversationHistory :=
  let cur := (h.sessions session_id).getD []
  let appended := cur ++ [⟨question, answer, now⟩]
  let kept := if h.max_history < appended.length
    then pyTakeLast appended h.max_history else appended
  { h with sessions := fun k => if k = session_id then some kept else h.sessions k }

/-- `ConversationHistory.get_history`: `self.sessions.get(session_id, [])`. -/
def ConversationHistory.get_history (h : ConversationHistory)
    (session_id : String) : List HistEntry :=
  (h.sessions session_id).getD []

/-- `ConversationHistory.clear_session`: delete the key when present
(the membership test plus `del` amounts to mapping the key to `none`). -/
def ConversationHistory.clear_session (h : ConversationHistory)
    (session_id : String) : ConversationHistory :=
  { h with sessions := fun k => if k = session_id then none else h.sessions k }

/-- An `add_message` event: session id, question, answer, timestamp. -/
abbrev AddEvent := String × String × String × ℚ

/-- Run a sequence of `add_message` calls against a store. -/
def runAdds (h : ConversationHistory) : List AddEvent → ConversationHistory
  | [] => h
  | e :: rest => runAdds (h.add_message e.1 e.2.1 e.2.2.1 e.2.2.2) rest

/-- The entries a sequence of add events contributes to one session,
in call order. -/
def sessionLog (events : List AddEvent) (sid : String) : List HistEntry :=
  (events.filter (fun e => e.1 == sid)).map fun e => ⟨e.2.1, e.2.2.1, e.2.2.2⟩

theorem ConversationHistory.ext_sessions {h g : ConversationHistory}
    (hs : h.sessions = g.sessions) (hm : h.max_history = g.max_history) : h = g := by
  cases h; cases g; simp_all

/-- C7: on the conversation history store, `get` of an unknown session
is the empty list with no error; `clear` of an absent session is a
no-op; after `clear` the session is gone and `get` returns the empty
list; and `clear` is idempotent. -/
theorem clear_session_semantics (h g : ConversationHistory) (sid : String)
    (habs : h.sessions sid = none) :
    h.get_history sid = []
    ∧ h.clear_session sid = h
    ∧ (g.clear_session sid).sessions sid = none
    ∧ (g.clear_session sid).get_history sid = []
    ∧ (g.clear_session sid).clear_session sid = g.clear_session sid := by
  refine ⟨?_, ?_, ?_, ?_, ?_⟩
  · simp [ConversationHistory.get_history, habs]
  · refine ConversationHistory.ext_sessions ?_ rfl
    funext k
    by_cases hk : k = sid <;> simp [ConversationHistory.clear_session, hk, habs]
  · simp [ConversationHistory.clear_session]
  · simp [ConversationHistory.get_history, ConversationHistory.clear_session]
  · refine ConversationHistory.ext_sessions ?_ rfl
    funext k
    by_cases hk : k = sid <;> simp [ConversationHistory.clear_session, hk]

/-- Witness for C7 at a concrete store and session id. -/
theorem clear_session_semantics_witness :
    (ConversationHistory.init 5).get_history "s1" = []
    ∧ (ConversationHistory.init 5).clear_session "s1" = ConversationHistory.init 5
    ∧ (((ConversationHistory.init 5).add_message "s1" "q" "a" 0).clear_session "s1").sessions "s1" = none
    ∧ (((ConversationHistory.init 5).add_message "s1" "q" "a" 0).clear_session "s1").get_history "s1" = []
    ∧ (((ConversationHistory.init 5).add_message "s1" "q" "a" 0).clear_session "s1").clear_session "s1"
      = ((ConversationHistory.init 5).add_message "s1" "q" "a" 0).clear_session "s1" :=
  clear_session_semantics (ConversationHistory.init 5)
    ((ConversationHistory.init 5).add_message "s1" "q" "a" 0) "s1" rfl

/-- The truncation step performed by `add_message`: append the entry,
then keep `lst[-max:]` whenever the list got longer than `max`. -/
def slideStep (max : Nat) (cur : List HistEntry) (e : HistEntry) : List HistEntry :=
  if max < (cur ++ [e]).length then pyTakeLast (cur ++ [e]) max else cur ++ [e]

theorem pyTakeLast_eq_reverse (l : List α) (k : Nat) (hk : k ≠ 0) :
    pyTakeLast l k = (l.reverse.take k).reverse := by
  simp [pyTakeLast, hk, List.take_reverse]

theorem get_history_add (h : ConversationHistory) (sid q a : String) (t : ℚ)
    (sid' : String) :
    (h.add_message sid q a t).get_history sid'
      = if sid' = sid then slideStep h.max_history (h.get_history sid) ⟨q, a, t⟩
        else h.get_history sid' := by
  by_cases hs : sid' = sid <;>
    simp [ConversationHistory.add_message, ConversationHistory.get_history, slideStep, hs]

theorem slideStep_takeLast (max : Nat) (hmax : 1 ≤ max) (l : List HistEntry)
    (e : HistEntry) :
    slideStep max (pyTakeLast l max) e = pyTakeLast (l ++ [e]) max := by
  obtain ⟨m, rfl⟩ : ∃ m, max = m + 1 := ⟨max - 1, by omega⟩
  by_cases hl : l.length < m + 1
  · have h1 : pyTakeLast l (m + 1) = l := by
      simp [pyTakeLast, Nat.sub_eq_zero_of_le (le_of_lt hl)]
    have hz : l.length - m = 0 := by omega
    have h2 : pyTakeLast (l ++ [e]) (m + 1) = l ++ [e] := by
      simp [pyTakeLast, hz]
    have hlen : (l ++ [e]).length = l.length + 1 := by simp
    have hng : ¬ (m + 1 < (l ++ [e]).length) := by rw [hlen]; omega
    rw [h1, slideStep, if_neg hng, h2]
  · have hk : m + 1 ≤ l.length := by omega
    have hc : pyTakeLast l (m + 1) = (l.reverse.take (m + 1)).reverse :=
      pyTakeLast_eq_reverse l (m + 1) (Nat.succ_ne_zero m)
    have hclen : (pyTakeLast l (m + 1)).length = m + 1 := by
      rw [hc]; simp; omega
    rw [slideStep, if_pos (by simp [hclen]), hc,
        pyTakeLast_eq_reverse ((l.reverse.take (m + 1)).reverse ++ [e]) (m + 1)
          (Nat.succ_ne_zero m),
        pyTakeLast_eq_reverse (l ++ [e]) (m + 1) (Nat.succ_ne_zero m)]
    have hmin : m ⊓ (m + 1) = m := by omega
    simp [List.take_succ_cons, List.take_take, hmin]

theorem runAdds_get_history (events : List AddEvent) :
    ∀ (h : ConversationHistory) (sid : String),
      (runAdds h events).get_history sid
        = (sessionLog events sid).foldl (slideStep h.max_history) (h.get_history sid) := by
  induction events with
  | nil => intro h sid; rfl
  | cons e rest ih =>
    intro h sid
    rw [runAdds, ih]
    have hmax : (h.add_message e.1 e.2.1 e.2.2.1 e.2.2.2).max_history = h.max_history := rfl
    by_cases hs : e.1 = sid
    · subst hs
      have hlog : sessionLog (e :: rest) e.1
          = (⟨e.2.1, e.2.2.1, e.2.2.2⟩ : HistEntry) :: sessionLog rest e.1 := by
        simp [sessionLog, List.filter_cons]
      rw [hlog, List.foldl_cons, hmax, get_history_add, if_pos rfl]
    · have hlog : sessionLog (e :: rest) sid = sessionLog rest sid := by
        simp [sessionLog, List.filter_cons, hs]
      rw [hlog, hmax, get_history_add, if_neg (fun hc => hs hc.symm)]

theorem foldl_slideStep_eq (max : Nat) (hmax : 1 ≤ max) (log : List HistEntry) :
    log.foldl (slideStep max) [] = pyTakeLast log max := by
  induction log using List.reverseRecOn with
  | nil =>
    have h0 : max ≠ 0 := by omega
    simp [pyTakeLast, h0]
  | append_singleton l e ih =>
    rw [List.foldl_append, List.foldl_cons, List.foldl_nil, ih,
        slideStep_takeLast max hmax l e]

/-- C1: after any sequence of `add_message` calls against a fresh store
with configured maximum `max ≥ 1` (default 5 in the source), every
history of every session is exactly the last `max` entries added for it, in
order of addition, and in particular never exceeds `max` in length. -/
theorem history_sliding_window (max : Nat) (hmax : 1 ≤ max)
    (events : List AddEvent) (sid : String) :
    (runAdds (ConversationHistory.init max) events).get_history sid
      = pyTakeLast (sessionLog events sid) max
    ∧ ((runAdds (ConversationHistory.init max) events).get_history sid).length ≤ max := by
  have h1 := runAdds_get_history events (ConversationHistory.init max) sid
  rw [show (ConversationHistory.init max).get_history sid = [] from rfl,
      show (ConversationHistory.init max).max_history = max from rfl,
      foldl_slideStep_eq max hmax] at h1
  refine ⟨h1, ?_⟩
  rw [h1, pyTakeLast_eq_reverse _ _ (by omega)]
  simp

/-- Witness for C1: seven additions to one session at maximum 5 leave the
last five entries, in order. -/
theorem history_sliding_window_witness :
    1 ≤ 5
    ∧ ((runAdds (ConversationHistory.init 5)
          [("s", "q1", "a1", 1), ("s", "q2", "a2", 2), ("s", "q3", "a3", 3),
           ("s", "q4", "a4", 4), ("t", "qx", "ax", 5), ("s", "q5", "a5", 6),
           ("s", "q6", "a6", 7), ("s", "q7", "a7", 8)]).get_history "s"
        = pyTakeLast (sessionLog
          [("s", "q1", "a1", 1), ("s", "q2", "a2", 2), ("s", "q3", "a3", 3),
           ("s", "q4", "a4", 4), ("t", "qx", "ax", 5), ("s", "q5", "a5", 6),
           ("s", "q6", "a6", 7), ("s", "q7", "a7", 8)] "s") 5
      ∧ ((runAdds (ConversationHistory.init 5)
          [("s", "q1", "a1", 1), ("s", "q2", "a2", 2), ("s", "q3", "a3", 3),
           ("s", "q4", "a4", 4), ("t", "qx", "ax", 5), ("s", "q5", "a5", 6),
           ("s", "q6", "a6", 7), ("s", "q7", "a7", 8)]).get_history "s").length ≤ 5) :=
  ⟨by decide,
   history_sliding_window 5 (by decide)
     [("s", "q1", "a1", 1), ("s", "q2", "a2", 2), ("s", "q3", "a3", 3),
      ("s", "q4", "a4", 4), ("t", "qx", "ax", 5), ("s", "q5", "a5", 6),
      ("s", "q6", "a6", 7), ("s", "q7", "a7", 8)] "s"⟩

/-- Metadata attached to an indexed chunk; absent keys are read with
dict defaults (`metadata.get(key, default)`) in the source. -/
structure DocMetadata where
  source : Option String
  doc_type : Option String
  chunk_id : Option Int
  filename : Option String
deriving DecidableEq

/-- A document returned by the vector index (`langchain` `Document`). -/
structure Document where
  page_content : String
  metadata : DocMetadata
deriving DecidableEq

/-- The arguments of one `vectorstore.similarity_search` call: the query
text, `k`, and the optional metadata filter keyword (the source never
passes a filter, so callers construct this with `filter := none`). -/
structure SearchRequest where
  query : String
  k : Nat
  filter : Option String
deriving DecidableEq

/-- The external collaborators of the pipeline: the vector index, the
chat model, Python `hash`, `uuid.uuid4()` and `time.time()`. -/
structure Env where
  search : SearchRequest → Except String (List Document)
  generate : String → Except String String
  hash : String → Int
  freshId : String
  now : ℚ

/-- The fixed system prompt of `EnhancedAWSStudyPartner.__init__`. -/
def system_prompt : String :=
  "You are an expert AWS certification study partner. \nYour role is to help students prepare for AWS certifications by:\n- Providing clear, accurate answers based on official AWS documentation\n- Explaining complex concepts in simple terms\n- Offering relevant examples and use cases\n- Helping students understand why answers are correct or incorrect\n- Being encouraging and supportive\n\nAlways base your answers on the provided context from study materials.\nIf you\x27re unsure, say so rather than making up information."

/-- `if not session_id: session_id = str(uuid.uuid4())` — `None` and the
empty string are both falsy. -/
def resolveSession (env : Env) (session_id : Option String) : String :=
  match session_id with
  | none => env.freshId
  | some s => if s = "" then env.freshId else s

/-- The history block of the prompt: empty unless history inclusion is
requested and the session has history; otherwise the last three entries,
each answer truncated to 100 characters. -/
def historyContextOf (hist : ConversationHistory) (sid : String)
    (include_history : Bool) : String :=
  if include_history && (sid != "") then
    let history := hist.get_history sid
    if history = [] then ""
    else "\n\nPrevious conversation:\n"
      ++ String.join ((pyTakeLast history 3).map fun entry =>
          "Q: " ++ entry.question ++ "\nA: " ++ pySliceTo entry.answer 100 ++ "...\n")
  else ""

/-- The full prompt assembled by `query`. -/
def buildPrompt (context history_context question : String) : String :=
  system_prompt ++ "\n\nContext from AWS study materials:\n" ++ context
    ++ "\n\n" ++ history_context ++ "\n\nCurrent question: " ++ question
    ++ "\n\nProvide a clear, helpful answer:"

/-- The prompt `query` sends to the model, given the retrieved documents. -/
def assembledPrompt (hist : ConversationHistory) (question sid : String)
    (include_history : Bool) (docs : List Document) : String :=
  buildPrompt (String.intercalate "\n\n" (docs.map (·.page_content)))
    (historyContextOf hist sid include_history) question

/-- One entry of the `sources` list in a query response. -/
structure SourceInfo where
  text : String
  source : String
  doc_type : String
  chunk_id : Int
  relevance_score : ℚ
deriving DecidableEq

/-- The `sources` list: rank-ordered excerpts with the synthetic
relevance score `1.0 - (i * 0.1)`. -/
def mkSources (docs : List Document) : List SourceInfo :=
  docs.enum.map fun p =>
    { text := pySliceTo p.2.page_content 300 ++ "..."
      source := p.2.metadata.source.getD "unknown"
      doc_type := p.2.metadata.doc_type.getD "unknown"
      chunk_id := p.2.metadata.chunk_id.getD (-1)
      relevance_score := 1 - (p.1 : ℚ) * (1 / 10) }

/-- The dictionary returned by `EnhancedAWSStudyPartner.query`
(the elapsed wall-clock `processing_time_ms` is real time and is not
modelled). -/
structure QueryResult where
  question : String
  answer : String
  sources : List SourceInfo
  num_sources : Nat
  session_id : String
deriving DecidableEq

/-- `EnhancedAWSStudyPartner.query`: resolve the session, render the
history block, retrieve `top_k` documents (no metadata filter), build
the prompt, call the model once, then record the Q/A pair in history.
A retrieval or generation failure propagates and leaves history
untouched. -/
def EnhancedAWSStudyPartner.query (env : Env) (hist : ConversationHistory)
    (question : String) (session_id : Option String) (top_k : Nat)
    (include_history : Bool) : Except String QueryResult × ConversationHistory :=
  let sid := resolveSession env session_id
  match env.search ⟨question, top_k, none⟩ with
  | .error e => (.error e, hist)
  | .ok docs =>
    match env.generate (assembledPrompt hist question sid include_history docs) with
    | .error e => (.error e, hist)
    | .ok response =>
      let sources := mkSources docs
      (.ok { question := question, answer := response, sources := sources,
             num_sources := sources.length, session_id := sid },
       hist.add_message sid question response env.now)

/-- The per-level instruction dict of `explain_concept`. -/
def detail_instructions : List (String × String) :=
  [("brief", "Provide a concise 2-3 sentence explanation."),
   ("medium", "Provide a comprehensive explanation with key features and use cases."),
   ("detailed", "Provide an in-depth explanation with features, use cases, best practices, and exam tips.")]

/-- The question text assembled by `explain_concept`; an unrecognized
detail level falls back to the "medium" instruction, and the two extra
numbered items appear only at level "detailed". -/
def explainQuestion (concept detail_level : String) : String :=
  let instruction := (detail_instructions.lookup detail_level).getD
    "Provide a comprehensive explanation with key features and use cases."
  let additional_items :=
    if detail_level = "detailed" then "\n4. Best practices\n5. Exam tips" else ""
  "Explain the AWS concept: " ++ concept ++ "\n\n" ++ instruction
    ++ "\n\nInclude:\n1. What it is\n2. Key features\n3. Common use cases"
    ++ additional_items ++ "\n\nKeep the explanation clear and educational."

/-- `EnhancedAWSStudyPartner.explain_concept`: builds the structured
question and delegates to `query` with `top_k = 6`. -/
def EnhancedAWSStudyPartner.explain_concept (env : Env)
    (hist : ConversationHistory) (concept detail_level : String) :
    Except String QueryResult × ConversationHistory :=
  EnhancedAWSStudyPartner.query env hist (explainQuestion concept detail_level)
    none 6 true

/-- The retrieval query string built by `generate_quiz` from the topic
and difficulty (both optional, empty strings falsy). -/
def quizSearchQuery (topic difficulty : Option String) : String :=
  let base := match topic with
    | some t => if t = "" then "AWS certification practice questions"
                else "practice questions about " ++ t
    | none => "AWS certification practice questions"
  match difficulty with
  | some d => if d = "" then base else base ++ " " ++ d
  | none => base

/-- The `similarity_search` call made by `generate_quiz`: the query
string, `k = num_questions * 3`, and no metadata filter. -/
def quizSearchRequest (topic : Option String) (num_questions : Nat)
    (difficulty : Option String) : SearchRequest :=
  ⟨quizSearchQuery topic difficulty, num_questions * 3, none⟩

/-- One generated quiz question. -/
structure QuizQuestionR where
  id : String
  question : String
  topic : String
  difficulty : String
  source : String
deriving DecidableEq

/-- A generated quiz. -/
structure QuizR where
  quiz_id : String
  topic : String
  questions : List QuizQuestionR
  total_questions : Nat
deriving DecidableEq

/-- `EnhancedAWSStudyPartner.generate_quiz`: retrieve `3 × num_questions`
candidates, keep the first `num_questions`, assign ids `q1, q2, ...`,
stamp topic/difficulty defaults. -/
def EnhancedAWSStudyPartner.generate_quiz (env : Env) (topic : Option String)
    (num_questions : Nat) (difficulty : Option String) : Except String QuizR :=
  let quiz_id := env.freshId
  match env.search (quizSearchRequest topic num_questions difficulty) with
  | .error e => .error e
  | .ok docs =>
    let questions := (docs.take num_questions).enum.map fun p =>
      { id := "q" ++ toString (p.1 + 1)
        question := p.2.page_content
        topic := pyOrStr topic "General AWS"
        difficulty := pyOrStr difficulty "medium"
        source := p.2.metadata.filename.getD "unknown" : QuizQuestionR }
    .ok { quiz_id := quiz_id, topic := pyOrStr topic "General AWS",
          questions := questions, total_questions := questions.length }

/-- HTTP-level errors raised by the API handlers. -/
inductive HttpError where
  | notFound (detail : String)
  | serverError (detail : String)
deriving DecidableEq

/-- One entry of the `results` list of a graded submission. -/
structure GradeItem where
  question_id : String
  question : String
  user_answer : String
  is_correct : Bool
  explanation : String
deriving DecidableEq

/-- The graded quiz result returned by `/api/quiz/submit`. -/
structure QuizResultR where
  quiz_id : String
  score : ℚ
  total_questions : Nat
  correct_answers : Nat
  results : List GradeItem
  passed : Bool
deriving DecidableEq

instance {ε α : Type} [DecidableEq ε] [DecidableEq α] : DecidableEq (Except ε α)
  | .error e, .error f =>
    if h : e = f then .isTrue (by rw [h]) else .isFalse (by simp [h])
  | .error _, .ok _ => .isFalse (by simp)
  | .ok _, .error _ => .isFalse (by simp)
  | .ok a, .ok b =>
    if h : a = b then .isTrue (by rw [h]) else .isFalse (by simp [h])

/-- Python `round(x, 2)` modelled on rationals.  Mathlib `round` is
round-half-up while Python rounds halves to even, but every score that
grading can produce for a quiz of at most 20 questions is more than
half a cent away from any tie, so the two agree on all reachable
inputs. -/
def pyRound2 (q : ℚ) : ℚ := ((round (q * 100) : ℤ) : ℚ) / 100

/-- Grading of a single question in `submit_quiz`: the answer is looked
up by question id with default `""`; an empty answer is incorrect, and
otherwise `bool(hash(user_answer) % 2)` decides. -/
def gradeQuestion (env : Env) (answers : List (String × String))
    (q : QuizQuestionR) : GradeItem :=
  let user_answer := (answers.lookup q.id).getD ""
  let is_correct :=
    if user_answer = "" then false else decide (env.hash user_answer % 2 ≠ 0)
  { question_id := q.id
    question := pySliceTo q.question 100 ++ "..."
    user_answer := user_answer
    is_correct := is_correct
    explanation := "Review AWS documentation for detailed explanation." }

/-- The grading loop of `submit_quiz`: accumulate the results list and
the number of correct answers. -/
def gradeLoop (env : Env) (answers : List (String × String))
    (qs : List QuizQuestionR) : List GradeItem × Nat :=
  qs.foldl
    (fun acc q =>
      let item := gradeQuestion env answers q
      (acc.1 ++ [item], acc.2 + if item.is_correct then 1 else 0))
    ([], 0)

/-- The `/api/quiz/submit` handler: look the quiz up in
`active_quizzes` (404 when absent), grade every question, compute the
percentage score (0 for an empty quiz), round it to two decimals, and
compare the unrounded score against the 70% passing grade. -/
def submit_quiz (env : Env) (active_quizzes : String → Option QuizR)
    (quiz_id : String) (answers : List (String × String)) :
    Except HttpError QuizResultR :=
  match active_quizzes quiz_id with
  | none => .error (.notFound ("Quiz " ++ quiz_id ++ " not found. Generate a quiz first."))
  | some quiz =>
    let graded := gradeLoop env answers quiz.questions
    let total := quiz.questions.length
    let score : ℚ := if 0 < total then (graded.2 : ℚ) / (total : ℚ) * 100 else 0
    let passed := decide ((70 : ℚ) ≤ score)
    .ok { quiz_id := quiz_id, score := pyRound2 score, total_questions := total,
          correct_answers := graded.2, results := graded.1, passed := passed }

/-- The process-global state of the API: the conversation
history of the engine and the `active_quizzes` dict. -/
structure ApiState where
  hist : ConversationHistory
  active_quizzes : String → Option QuizR

/-- The `/api/query` handler: delegate to the engine and flatten any
failure into a single generic 500 error. -/
def queryEndpoint (env : Env) (st : ApiState) (question : String)
    (session_id : Option String) (top_k : Nat) :
    Except HttpError QueryResult × ApiState :=
  match EnhancedAWSStudyPartner.query env st.hist question session_id top_k true with
  | (.error e, h) => (.error (.serverError ("Query failed: " ++ e)), { st with hist := h })
  | (.ok r, h) => (.ok r, { st with hist := h })

/-- The `/api/quiz/submit` handler at the state level: grading reads
the quiz store and never writes any global state. -/
def submitQuizEndpoint (env : Env) (st : ApiState) (quiz_id : String)
    (answers : List (String × String)) :
    Except HttpError QuizResultR × ApiState :=
  (submit_quiz env st.active_quizzes quiz_id answers, st)

theorem mkSources_length (docs : List Document) :
    (mkSources docs).length = docs.length := by
  simp [mkSources]

theorem mkSources_scores (docs : List Document) :
    (mkSources docs).map (·.relevance_score)
      = (List.range docs.length).map (fun (i : Nat) => 1 - (i : ℚ) * (1 / 10)) := by
  rw [mkSources, List.map_map, ← List.enum_map_fst docs, List.map_map]
  rfl

theorem mkSources_texts (docs : List Document) :
    (mkSources docs).map (·.text)
      = docs.map (fun d => pySliceTo d.page_content 300 ++ "...") := by
  conv_rhs => rw [← List.enum_map_snd docs]
  rw [mkSources, List.map_map, List.map_map]
  rfl

/-- C2: a successful `query` with `top_k = 5` against an index that
returns at most five documents yields exactly `min 5 docs.length`
sources, in retrieval rank order, with synthetic relevance score
`1.0 - 0.1 * rank` at 0-based rank `i` — hence strictly decreasing —
and `num_sources` equal to the length of the sources list. -/
theorem query_top5_sources (env : Env) (hist : ConversationHistory)
    (question : String) (session_id : Option String) (include_history : Bool)
    (docs : List Document) (res : QueryResult)
    (hs : env.search ⟨question, 5, none⟩ = .ok docs)
    (hlen : docs.length ≤ 5)
    (hr : (EnhancedAWSStudyPartner.query env hist question session_id 5
      include_history).1 = .ok res) :
    res.num_sources = res.sources.length
    ∧ res.sources.length = min 5 docs.length
    ∧ res.sources.map (·.relevance_score)
        = (List.range docs.length).map (fun (i : Nat) => 1 - (i : ℚ) * (1 / 10))
    ∧ res.sources.map (·.text)
        = docs.map (fun d => pySliceTo d.page_content 300 ++ "...")
    ∧ List.Pairwise (fun a b => b < a) (res.sources.map (·.relevance_score)) := by
  cases hge : env.generate (assembledPrompt hist question
      (resolveSession env session_id) include_history docs) with
  | error e =>
    simp only [EnhancedAWSStudyPartner.query, hs, hge] at hr
    simp at hr
  | ok response =>
    simp only [EnhancedAWSStudyPartner.query, hs, hge] at hr
    simp at hr
    subst hr
    refine ⟨rfl, ?_, mkSources_scores docs, mkSources_texts docs, ?_⟩
    · rw [mkSources_length]
      omega
    · rw [mkSources_scores docs, List.pairwise_map]
      refine (List.pairwise_lt_range docs.length).imp ?_
      intro i j hij
      have hc : (i : ℚ) < (j : ℚ) := by exact_mod_cast hij
      nlinarith

/-- Shared concrete documents for the witnesses. -/
def docsW : List Document :=
  [⟨"alpha doc", ⟨some "s3.pdf", some "guide", some 1, some "s3.pdf"⟩⟩,
   ⟨"beta doc", ⟨some "ec2.pdf", some "guide", some 2, some "ec2.pdf"⟩⟩,
   ⟨"gamma doc", ⟨none, none, none, none⟩⟩]

/-- Shared concrete environment for the witnesses: the index always
returns `docsW`, generation always succeeds. -/
def envW : Env :=
  { search := fun _ => .ok docsW
    generate := fun _ => .ok "an answer"
    hash := fun _ => 1
    freshId := "fresh-session"
    now := 0 }

/-- The query result `envW` produces for "What is S3?" at `top_k = 5`. -/
def resW : QueryResult :=
  { question := "What is S3?", answer := "an answer", sources := mkSources docsW,
    num_sources := (mkSources docsW).length, session_id := "fresh-session" }

/-- Witness for C2 at the concrete environment `envW`. -/
theorem query_top5_sources_witness :
    (envW.search ⟨"What is S3?", 5, none⟩ = .ok docsW
      ∧ docsW.length ≤ 5
      ∧ (EnhancedAWSStudyPartner.query envW (ConversationHistory.init 5)
          "What is S3?" none 5 true).1 = .ok resW)
    ∧ resW.sources.length = min 5 docsW.length :=
  ⟨⟨rfl, by decide, rfl⟩,
   (query_top5_sources envW (ConversationHistory.init 5) "What is S3?" none true
      docsW resW rfl (by decide) rfl).2.1⟩

/-- C3: a successful `generate_quiz` with `1 ≤ N ≤ 20` requested
questions returns `min N candidates` questions — all `N` when at least
`N` candidates were retrieved, all candidates otherwise, never more
than `N` — with sequential ids `q1, q2, ...`, every question stamped
with the (defaulted) topic and difficulty, question texts taken from
the first retrieved candidates in order, and `total_questions` equal
to the number of returned questions. -/
theorem generate_quiz_spec (env : Env) (topic difficulty : Option String)
    (n : Nat) (h1 : 1 ≤ n) (h20 : n ≤ 20) (docs : List Document) (quiz : QuizR)
    (hs : env.search (quizSearchRequest topic n difficulty) = .ok docs)
    (hg : EnhancedAWSStudyPartner.generate_quiz env topic n difficulty = .ok quiz) :
    quiz.questions.length = min n docs.length
    ∧ (n ≤ docs.length → quiz.questions.length = n)
    ∧ (docs.length < n → quiz.questions.length = docs.length)
    ∧ quiz.questions.length ≤ n
    ∧ quiz.questions.map (·.id)
        = (List.range (min n docs.length)).map (fun i => "q" ++ toString (i + 1))
    ∧ (∀ q ∈ quiz.questions,
        q.topic = pyOrStr topic "General AWS" ∧ q.difficulty = pyOrStr difficulty "medium")
    ∧ quiz.questions.map (·.question) = (docs.take n).map (·.page_content)
    ∧ quiz.total_questions = quiz.questions.length := by
  simp only [EnhancedAWSStudyPartner.generate_quiz, hs] at hg
  simp at hg
  subst hg
  refine ⟨?_, ?_, ?_, ?_, ?_, ?_, ?_, ?_⟩
  · simp
  · intro h; simp; omega
  · intro h; simp; omega
  · simp
  · rw [show min n docs.length = (docs.take n).length from
        (List.length_take n docs).symm]
    rw [List.map_map, ← List.enum_map_fst (docs.take n), List.map_map]
    rfl
  · intro q hq
    simp [List.mem_map] at hq
    obtain ⟨p, d, hmem, rfl⟩ := hq
    exact ⟨rfl, rfl⟩
  · conv_rhs => rw [← List.enum_map_snd (docs.take n)]
    rw [List.map_map, List.map_map]
    rfl
  · simp

/-- The quiz `envW` generates for topic "EC2" with two questions. -/
def quizW : QuizR :=
  { quiz_id := "fresh-session", topic := "EC2"
    questions :=
      [{ id := "q1", question := "alpha doc", topic := "EC2",
         difficulty := "medium", source := "s3.pdf" },
       { id := "q2", question := "beta doc", topic := "EC2",
         difficulty := "medium", source := "ec2.pdf" }]
    total_questions := 2 }

/-- Witness for C3 at the concrete environment `envW`. -/
theorem generate_quiz_spec_witness :
    (1 ≤ 2 ∧ 2 ≤ 20
      ∧ envW.search (quizSearchRequest (some "EC2") 2 none) = .ok docsW
      ∧ EnhancedAWSStudyPartner.generate_quiz envW (some "EC2") 2 none = .ok quizW)
    ∧ quizW.questions.map (·.id)
        = (List.range (min 2 docsW.length)).map (fun i => "q" ++ toString (i + 1)) :=
  ⟨⟨by decide, by decide, rfl, rfl⟩,
   (generate_quiz_spec envW (some "EC2") none 2 (by decide) (by decide) docsW quizW
      rfl rfl).2.2.2.2.1⟩

/-- C4 counterexample: the retrieval request built by `generate_quiz`
carries no metadata filter at all, so it does not restrict candidates
to a "questions" document type. -/
theorem quiz_retrieval_no_filter :
    ¬ ((quizSearchRequest (some "EC2") 5 (some "medium")).filter = some "questions") := by
  simp [quizSearchRequest]

/-- C4 amended: for every call, the candidate retrieval request asks
the vector index for `3 × num_questions` documents and applies no
document-type filter. -/
theorem quiz_retrieval_request_spec (topic difficulty : Option String) (n : Nat) :
    (quizSearchRequest topic n difficulty).k = n * 3
    ∧ (quizSearchRequest topic n difficulty).filter = none :=
  ⟨rfl, rfl⟩

theorem round_mono_q {a b : ℚ} (h : a ≤ b) : round a ≤ round b := by
  rw [round_eq, round_eq]
  exact Int.floor_mono (by linarith)

theorem gradeLoop_go (env : Env) (answers : List (String × String)) :
    ∀ (qs : List QuizQuestionR) (acc : List GradeItem × Nat),
      qs.foldl
        (fun acc q =>
          let item := gradeQuestion env answers q
          (acc.1 ++ [item], acc.2 + if item.is_correct then 1 else 0)) acc
      = (acc.1 ++ qs.map (gradeQuestion env answers),
         acc.2 + (qs.map (gradeQuestion env answers)).countP (·.is_correct)) := by
  intro qs
  induction qs with
  | nil => intro acc; simp
  | cons q rest ih =>
    intro acc
    rw [List.foldl_cons, ih]
    simp [List.countP_cons]
    omega

theorem gradeLoop_spec (env : Env) (answers : List (String × String))
    (qs : List QuizQuestionR) :
    gradeLoop env answers qs
      = (qs.map (gradeQuestion env answers),
         (qs.map (gradeQuestion env answers)).countP (·.is_correct)) := by
  rw [gradeLoop, gradeLoop_go]
  simp

/-- A score of the form `100 c / t` with `c ≤ t ≤ 20`, `t > 0`, clears
the 70% threshold after rounding to two decimals exactly when the
unrounded score does: any such score below 70 is at most `69.5`, so
rounding cannot push it across the threshold. -/
theorem pyRound2_ge70_iff (c t : Nat) (hc : c ≤ t) (ht : 0 < t) (ht20 : t ≤ 20) :
    (70 : ℚ) ≤ pyRound2 ((c : ℚ) / (t : ℚ) * 100) ↔ (70 : ℚ) ≤ (c : ℚ) / (t : ℚ) * 100 := by
  have htq : (0 : ℚ) < (t : ℚ) := by exact_mod_cast ht
  constructor
  · intro h
    by_contra hlt
    push_neg at hlt
    have h1 : (c : ℚ) * 100 < 70 * t := by
      rw [div_mul_eq_mul_div, div_lt_iff htq] at hlt
      linarith
    have h2 : c * 100 < 70 * t := by exact_mod_cast h1
    have h3 : 10000 * c + 1000 ≤ 7000 * t := by omega
    have h4 : (10000 : ℚ) * c + 1000 ≤ 7000 * t := by exact_mod_cast h3
    have htq20 : (t : ℚ) ≤ 20 := by exact_mod_cast ht20
    have h5 : (c : ℚ) / t * 100 * 100 ≤ 6950 := by
      rw [show (c : ℚ) / t * 100 * 100 = 10000 * c / t by ring, div_le_iff htq]
      nlinarith
    have h6 : round ((c : ℚ) / t * 100 * 100) ≤ 6950 := by
      have := round_mono_q h5
      rwa [show ((6950 : ℚ)) = ((6950 : ℤ) : ℚ) by norm_num, round_intCast] at this
    have h7 : (70 : ℚ) ≤ ((round ((c : ℚ) / t * 100 * 100) : ℤ) : ℚ) / 100 := h
    have h8 : ((round ((c : ℚ) / t * 100 * 100) : ℤ) : ℚ) ≤ 6950 := by exact_mod_cast h6
    linarith
  · intro h
    have h1 : (7000 : ℚ) ≤ (c : ℚ) / t * 100 * 100 := by linarith
    have h2 : (7000 : ℤ) ≤ round ((c : ℚ) / t * 100 * 100) := by
      have := round_mono_q h1
      rwa [show ((7000 : ℚ)) = ((7000 : ℤ) : ℚ) by norm_num, round_intCast] at this
    have h3 : (7000 : ℚ) ≤ ((round ((c : ℚ) / t * 100 * 100) : ℤ) : ℚ) := by
      exact_mod_cast h2
    rw [pyRound2]
    linarith

/-- C5: a submission graded against a stored quiz with `0 < T ≤ 20`
questions returns `total_questions = T`, `correct_answers` equal to the
number of questions judged correct (hence between 0 and `T`), `score`
equal to `100 · correct / T` rounded to two decimals, and `passed`
exactly when that score reaches 70. -/
theorem submit_quiz_score_spec (env : Env) (quizzes : String → Option QuizR)
    (quiz_id : String) (answers : List (String × String)) (quiz : QuizR)
    (res : QuizResultR)
    (hq : quizzes quiz_id = some quiz)
    (hT : 0 < quiz.questions.length) (hT20 : quiz.questions.length ≤ 20)
    (hr : submit_quiz env quizzes quiz_id answers = .ok res) :
    res.total_questions = quiz.questions.length
    ∧ res.correct_answers = res.results.countP (·.is_correct)
    ∧ res.correct_answers ≤ res.total_questions
    ∧ res.score = pyRound2 ((res.correct_answers : ℚ) / (res.total_questions : ℚ) * 100)
    ∧ (res.passed = true ↔ (70 : ℚ) ≤ res.score) := by
  simp only [submit_quiz, hq, gradeLoop_spec] at hr
  simp at hr
  subst hr
  have hcount : (quiz.questions.countP ((·.is_correct) ∘ gradeQuestion env answers))
      ≤ quiz.questions.length := List.countP_le_length _
  refine ⟨rfl, ?_, hcount, ?_, ?_⟩
  · simp [List.countP_map]
  · simp [hT]
  · simp only [if_pos hT, decide_eq_true_iff]
    exact (pyRound2_ge70_iff _ _ hcount hT hT20).symm

/-- A stored two-question quiz used by the grading witnesses. -/
def storedQuizW : String → Option QuizR :=
  fun k => if k = "quiz-1" then some quizW else none

/-- The result of grading `quizW` with a single nonempty answer under
`envW` (whose hash function judges every nonempty answer correct). -/
def resQ1 : QuizResultR :=
  { quiz_id := "quiz-1", score := 50, total_questions := 2, correct_answers := 1,
    results := quizW.questions.map (gradeQuestion envW [("q1", "answer one")]),
    passed := false }

theorem submit_quizW_eval :
    submit_quiz envW storedQuizW "quiz-1" [("q1", "answer one")] = .ok resQ1 := by
  have hstore : storedQuizW "quiz-1" = some quizW := rfl
  simp only [submit_quiz, hstore, gradeLoop_spec]
  simp [quizW, resQ1, gradeQuestion, envW, pyRound2, List.lookup, List.countP_cons,
    List.countP_nil, pySliceTo]
  norm_num

/-- Witness for C5: grading a two-question quiz where one hashed answer
is judged correct yields a rounded 50.0 score and a failing result. -/
theorem submit_quiz_score_spec_witness :
    (storedQuizW "quiz-1" = some quizW
      ∧ 0 < quizW.questions.length ∧ quizW.questions.length ≤ 20
      ∧ submit_quiz envW storedQuizW "quiz-1" [("q1", "answer one")] = .ok resQ1)
    ∧ (resQ1.passed = true ↔ (70 : ℚ) ≤ resQ1.score) :=
  ⟨⟨rfl, by decide, by decide, submit_quizW_eval⟩,
   (submit_quiz_score_spec envW storedQuizW "quiz-1" [("q1", "answer one")] quizW
      resQ1 rfl (by decide) (by decide) submit_quizW_eval).2.2.2.2⟩

/-- C6: submitting against an unknown quiz id yields the 404 not-found
error, returns no (even partial) grading result, and leaves the quiz
store and conversation sessions untouched. -/
theorem submit_unknown_quiz_not_found (env : Env) (st : ApiState)
    (quiz_id : String) (answers : List (String × String))
    (habs : st.active_quizzes quiz_id = none) :
    (submitQuizEndpoint env st quiz_id answers).1
      = .error (.notFound ("Quiz " ++ quiz_id ++ " not found. Generate a quiz first."))
    ∧ (submitQuizEndpoint env st quiz_id answers).2 = st := by
  constructor
  · simp [submitQuizEndpoint, submit_quiz, habs]
  · rfl

/-- Witness for C6 on an empty quiz store. -/
theorem submit_unknown_quiz_not_found_witness :
    ((⟨ConversationHistory.init 5, fun _ => none⟩ : ApiState).active_quizzes "nope" = none)
    ∧ (submitQuizEndpoint envW ⟨ConversationHistory.init 5, fun _ => none⟩ "nope" []).1
      = .error (.notFound ("Quiz " ++ "nope" ++ " not found. Generate a quiz first."))
    ∧ (submitQuizEndpoint envW ⟨ConversationHistory.init 5, fun _ => none⟩ "nope" []).2
      = ⟨ConversationHistory.init 5, fun _ => none⟩ :=
  ⟨rfl,
   (submit_unknown_quiz_not_found envW ⟨ConversationHistory.init 5, fun _ => none⟩
      "nope" [] rfl).1,
   (submit_unknown_quiz_not_found envW ⟨ConversationHistory.init 5, fun _ => none⟩
      "nope" [] rfl).2⟩

/-- C10: a question whose id is missing from the submitted answers map,
or whose submitted answer is empty, is graded incorrect; and grading a
stored quiz with zero questions returns score 0, `passed = false`,
zero correct answers and an empty results list instead of failing on
division by zero. -/
theorem grading_defaults_safe (env : Env) (quizzes : String → Option QuizR)
    (quiz_id : String) (answers : List (String × String)) (quiz : QuizR)
    (res : QuizResultR)
    (hq : quizzes quiz_id = some quiz)
    (hr : submit_quiz env quizzes quiz_id answers = .ok res) :
    res.results = quiz.questions.map (gradeQuestion env answers)
    ∧ (∀ q : QuizQuestionR,
        (answers.lookup q.id = none ∨ answers.lookup q.id = some "") →
        (gradeQuestion env answers q).is_correct = false)
    ∧ (quiz.questions = [] →
        res.score = 0 ∧ res.passed = false ∧ res.correct_answers = 0
        ∧ res.total_questions = 0 ∧ res.results = []) := by
  simp only [submit_quiz, hq, gradeLoop_spec] at hr
  simp at hr
  subst hr
  refine ⟨rfl, ?_, ?_⟩
  · intro q hq'
    cases hq' with
    | inl h => simp [gradeQuestion, h]
    | inr h => simp [gradeQuestion, h]
  · intro hempty
    rw [hempty]
    refine ⟨?_, ?_, rfl, rfl, rfl⟩
    · simp [pyRound2]
    · simp

/-- An empty stored quiz for the C10 witness. -/
def emptyQuizStore : String → Option QuizR :=
  fun k => if k = "quiz-empty"
    then some { quiz_id := "quiz-empty", topic := "General AWS",
                questions := [], total_questions := 0 }
    else none

theorem submit_empty_eval :
    submit_quiz envW emptyQuizStore "quiz-empty" [("q1", "")]
      = .ok { quiz_id := "quiz-empty", score := 0, total_questions := 0,
              correct_answers := 0, results := [], passed := false } := by
  have hstore : emptyQuizStore "quiz-empty"
      = some { quiz_id := "quiz-empty", topic := "General AWS",
               questions := [], total_questions := 0 } := rfl
  simp only [submit_quiz, hstore, gradeLoop_spec]
  norm_num [pyRound2]

/-- Witness for C10: grading the empty quiz returns score 0 and
`passed = false`. -/
theorem grading_defaults_safe_witness :
    (emptyQuizStore "quiz-empty"
        = some { quiz_id := "quiz-empty", topic := "General AWS",
                 questions := [], total_questions := 0 }
      ∧ submit_quiz envW emptyQuizStore "quiz-empty" [("q1", "")]
        = .ok { quiz_id := "quiz-empty", score := 0, total_questions := 0,
                correct_answers := 0, results := [], passed := false })
    ∧ (gradeQuestion envW [("q1", "")]
        { id := "q1", question := "x", topic := "t", difficulty := "d",
          source := "s" }).is_correct = false :=
  ⟨⟨rfl, submit_empty_eval⟩,
   (grading_defaults_safe envW emptyQuizStore "quiz-empty" [("q1", "")]
      { quiz_id := "quiz-empty", topic := "General AWS", questions := [],
        total_questions := 0 }
      { quiz_id := "quiz-empty", score := 0, total_questions := 0,
        correct_answers := 0, results := [], passed := false }
      rfl submit_empty_eval).2.1
     { id := "q1", question := "x", topic := "t", difficulty := "d", source := "s" }
     (Or.inr rfl)⟩

/-- Whether the pattern is a leading match of the character list. -/
def matchesAt : List Char → List Char → Bool
  | [], _ => true
  | _ :: _, [] => false
  | p :: ps, c :: cs => p == c && matchesAt ps cs

/-- Whether the pattern occurs anywhere in the character list
(Python `pat in s`). -/
def occursIn (p : List Char) : List Char → Bool
  | [] => matchesAt p []
  | c :: cs => matchesAt p (c :: cs) || occursIn p cs

/-- Substring test on strings. -/
def containsStr (s pat : String) : Bool := occursIn pat.data s.data

theorem occursIn_append_right (p : List Char) (s t : List Char)
    (h : occursIn p t = true) : occursIn p (s ++ t) = true := by
  induction s with
  | nil => simpa using h
  | cons c cs ih =>
    rw [List.cons_append, occursIn, ih, Bool.or_true]

theorem containsStr_append_right (s t pat : String)
    (h : containsStr t pat = true) : containsStr (s ++ t) pat = true := by
  rw [containsStr, String.data_append]
  exact occursIn_append_right pat.data s.data t.data h

/-- C8: `explain_concept` delegates to `query` with `top_k = 6`; an
unrecognized detail level is silently treated as "medium"; the "brief"
question text contains the "concise 2-3 sentence" instruction for every
concept; and (at the example concept from the spec) the "brief" question omits
the best-practices/exam-tips items that appear exactly at "detailed". -/
theorem explain_concept_spec (env : Env) (hist : ConversationHistory)
    (concept dl dl2 : String)
    (h1 : dl ≠ "brief") (h2 : dl ≠ "medium") (h3 : dl ≠ "detailed") :
    EnhancedAWSStudyPartner.explain_concept env hist concept dl2
      = EnhancedAWSStudyPartner.query env hist (explainQuestion concept dl2) none 6 true
    ∧ EnhancedAWSStudyPartner.explain_concept env hist concept dl
      = EnhancedAWSStudyPartner.explain_concept env hist concept "medium"
    ∧ containsStr (explainQuestion concept "brief") "concise 2-3 sentence" = true
    ∧ containsStr (explainQuestion "VPC peering" "brief") "Best practices" = false
    ∧ containsStr (explainQuestion "VPC peering" "brief") "Exam tips" = false
    ∧ containsStr (explainQuestion "VPC peering" "detailed") "Best practices" = true
    ∧ containsStr (explainQuestion "VPC peering" "detailed") "Exam tips" = true := by
  have e1 : (dl == "brief") = false := beq_eq_false_iff_ne.mpr h1
  have e2 : (dl == "medium") = false := beq_eq_false_iff_ne.mpr h2
  have e3 : (dl == "detailed") = false := beq_eq_false_iff_ne.mpr h3
  refine ⟨rfl, ?_, ?_, by decide, by decide, by decide, by decide⟩
  · rw [EnhancedAWSStudyPartner.explain_concept, EnhancedAWSStudyPartner.explain_concept]
    congr 1
    simp [explainQuestion, detail_instructions, List.lookup, e1, e2, e3, h3]
  · have hq : explainQuestion concept "brief"
        = "Explain the AWS concept: "
          ++ (concept
          ++ "\n\nProvide a concise 2-3 sentence explanation.\n\nInclude:\n1. What it is\n2. Key features\n3. Common use cases\n\nKeep the explanation clear and educational.") := by
      simp [explainQuestion, detail_instructions, List.lookup, String.append_assoc]
    rw [hq]
    apply containsStr_append_right
    apply containsStr_append_right
    decide

/-- Witness for C8 at a concrete unrecognized detail level. -/
theorem explain_concept_spec_witness :
    ("bogus" ≠ "brief" ∧ "bogus" ≠ "medium" ∧ "bogus" ≠ "detailed")
    ∧ (EnhancedAWSStudyPartner.explain_concept envW (ConversationHistory.init 5)
          "VPC peering" "bogus"
        = EnhancedAWSStudyPartner.explain_concept envW (ConversationHistory.init 5)
          "VPC peering" "medium"
      ∧ containsStr (explainQuestion "VPC peering" "brief") "concise 2-3 sentence" = true) :=
  ⟨⟨by decide, by decide, by decide⟩,
   ⟨(explain_concept_spec envW (ConversationHistory.init 5) "VPC peering" "bogus"
       "brief" (by decide) (by decide) (by decide)).2.1,
    (explain_concept_spec envW (ConversationHistory.init 5) "VPC peering" "bogus"
       "brief" (by decide) (by decide) (by decide)).2.2.1⟩⟩

/-- C9: if the retrieval call fails, `query` propagates the failure
with the conversation history unchanged and the endpoint surfaces a
single generic error; if retrieval succeeds but generation fails,
likewise; and the question/answer pair is recorded in history only
after generation has succeeded. -/
theorem query_failure_atomic (env : Env) (st : ApiState) (question : String)
    (session_id : Option String) (top_k : Nat) :
    (∀ e, env.search ⟨question, top_k, none⟩ = .error e →
      EnhancedAWSStudyPartner.query env st.hist question session_id top_k true
          = (.error e, st.hist)
        ∧ queryEndpoint env st question session_id top_k
          = (.error (.serverError ("Query failed: " ++ e)), st))
    ∧ (∀ docs e, env.search ⟨question, top_k, none⟩ = .ok docs →
        env.generate (assembledPrompt st.hist question
          (resolveSession env session_id) true docs) = .error e →
        EnhancedAWSStudyPartner.query env st.hist question session_id top_k true
            = (.error e, st.hist)
          ∧ queryEndpoint env st question session_id top_k
            = (.error (.serverError ("Query failed: " ++ e)), st))
    ∧ (∀ docs response, env.search ⟨question, top_k, none⟩ = .ok docs →
        env.generate (assembledPrompt st.hist question
          (resolveSession env session_id) true docs) = .ok response →
        (EnhancedAWSStudyPartner.query env st.hist question session_id top_k true).2
          = st.hist.add_message (resolveSession env session_id) question response
              env.now) := by
  refine ⟨?_, ?_, ?_⟩
  · intro e hs
    have hq : EnhancedAWSStudyPartner.query env st.hist question session_id top_k true
        = (.error e, st.hist) := by
      simp [EnhancedAWSStudyPartner.query, hs]
    refine ⟨hq, ?_⟩
    simp [queryEndpoint, hq]
  · intro docs e hs hg
    have hq : EnhancedAWSStudyPartner.query env st.hist question session_id top_k true
        = (.error e, st.hist) := by
      simp [EnhancedAWSStudyPartner.query, hs, hg]
    refine ⟨hq, ?_⟩
    simp [queryEndpoint, hq]
  · intro docs response hs hg
    simp [EnhancedAWSStudyPartner.query, hs, hg]

/-- An environment whose vector index always fails. -/
def envFail : Env :=
  { search := fun _ => .error "boom"
    generate := fun _ => .error "gen-fail"
    hash := fun _ => 0
    freshId := "sid"
    now := 0 }

/-- Witness for C9: a failing retrieval surfaces the generic error and
leaves the state unchanged. -/
theorem query_failure_atomic_witness :
    envFail.search ⟨"What is EC2?", 5, none⟩ = .error "boom"
    ∧ queryEndpoint envFail ⟨ConversationHistory.init 5, fun _ => none⟩
        "What is EC2?" none 5
      = (.error (.serverError ("Query failed: " ++ "boom")),
         ⟨ConversationHistory.init 5, fun _ => none⟩) :=
  ⟨rfl,
   ((query_failure_atomic envFail ⟨ConversationHistory.init 5, fun _ => none⟩
      "What is EC2?" none 5).1 "boom" rfl).2⟩

end AwsStudy
